import Mathlib

/-!
Shallow embedding of `roc_netio::UDPReceiver`
(src/src/modules/roc_netio/target_uv/roc_netio/udp_receiver.h).

The receiver owns one libuv UDP handle, leases buffers from a shared pool in
`alloc_cb_`, assembles packets in `recv_cb_`, and implements a two-phase
stop/close lifecycle with deferred removal from a shared container.

External collaborators (the event loop, the pools, the address type) are
modelled at their interface boundary, as the spec prescribes: OS outcomes
(init/bind/getsockname/recv-start results, lease success) are oracle inputs,
and reference counting of `core::Buffer` follows the documented
SharedPtr/incref/decref protocol as explicit natural-number bookkeeping.
Fatal `roc_panic` paths are modelled as distinguished error results.
-/

namespace UDPReceiver

/-- Socket address value (`packet::Address`, external collaborator).
`family`/`host`/`port` identify the address; a default-constructed
address is the "unset" value. -/
structure Address where
  family : Nat
  host : Nat
  port : Nat
deriving DecidableEq, Repr

/-- Default-constructed `packet::Address()` (the "unset" address). -/
def defaultAddress : Address := ⟨0, 0, 0⟩

/-- `Address::slen()`: size of the underlying sockaddr structure,
determined by the address family (sockaddr_in vs sockaddr_in6). -/
def Address.slen (a : Address) : Nat := if a.family = 0 then 16 else 28

/-- A raw `sockaddr*` as handed to `recv_cb_` by the event loop, together
with the outcome of `Address::set_saddr` on it (the external conversion
may fail; `conv = none` models that failure). -/
structure SockAddr where
  conv : Option Address
deriving DecidableEq, Repr

/-- `packet::Address::set_saddr`: convert a raw sockaddr; may fail. -/
def set_saddr (sa : SockAddr) : Option Address := sa.conv

/-- The mutable state of one `UDPReceiver`.
`handle_initialized` is the receiver's own flag; `handle_closing` models
`uv_is_closing` on the uv handle (true once `uv_close` was issued);
`close_cb_registered` records whether that `uv_close` carried `close_cb_`
(stop path) or NULL (rollback path); `handle_data_set` models
`handle_.data == this`; `container` is the `container_` pointer recorded
by `remove` (container identity as a number); `packet_counter` is the
diagnostics counter, a 32-bit unsigned value that wraps at `uintMod`. -/
structure Receiver where
  handle_initialized : Bool
  handle_closing : Bool
  close_cb_registered : Bool
  handle_data_set : Bool
  address : Address
  container : Option Nat
  packet_counter : Nat
deriving DecidableEq, Repr

/-- The constructor `UDPReceiver::UDPReceiver`: handle not initialized,
no pending container, counter zero, address default-constructed. -/
def mkReceiver : Receiver :=
  { handle_initialized := false
    handle_closing := false
    close_cb_registered := false
    handle_data_set := false
    address := defaultAddress
    container := none
    packet_counter := 0 }

/-- The destructor body panics iff the handle is still initialized
(`roc_panic` "receiver was not fully closed before calling destructor"). -/
def destructorPanics (s : Receiver) : Bool := s.handle_initialized

/-- `UDPReceiver::stop`, instrumented with whether this call issued a
`uv_close` request. Returns unchanged state and no close when the handle
is not initialized or is already closing; otherwise stops receiving and
issues `uv_close(&handle_, close_cb_)`. -/
def stopE (s : Receiver) : Receiver × Bool :=
  if !s.handle_initialized then (s, false)
  else if s.handle_closing then (s, false)
  else ({ s with handle_closing := true, close_cb_registered := true }, true)

/-- `UDPReceiver::stop` (state effect only). -/
def stop (s : Receiver) : Receiver := (stopE s).1

/-- `UDPReceiver::close_cb_`: the close-completion notification. Clears
the initialized flag and, if a pending container was recorded, removes
the receiver from it. Second component: how many container removals this
invocation performs. -/
def close_cb_ (s : Receiver) : Receiver × Nat :=
  let s1 := { s with handle_initialized := false }
  (s1, if s1.container.isSome then 1 else 0)

/-- `UDPReceiver::remove`. Panics (`roc_panic_if(container_)`) when a
pending-removal container is already recorded. If the handle is
initialized: calls `stop()`, records the container, clears the bound
address, removal deferred (0 removals now). Otherwise removes from the
container immediately (1 removal now). -/
def remove (s : Receiver) (cid : Nat) : Except String (Receiver × Nat) :=
  if s.container.isSome then
    Except.error "udp receiver: container_ already set"
  else if s.handle_initialized then
    let s1 := stop s
    Except.ok ({ s1 with container := some cid, address := defaultAddress }, 0)
  else
    Except.ok (s, 1)

/-- `UDPReceiver::close_`: synchronous rollback close used by `start`.
No-op when not initialized or already closing; otherwise clears
`handle_.data`, clears the initialized flag, and issues
`uv_close(&handle_, NULL)` — with NULL callback, so no close-completion
notification is registered. -/
def close_ (s : Receiver) : Receiver :=
  if !s.handle_initialized then s
  else if s.handle_closing then s
  else { s with handle_data_set := false
                handle_initialized := false
                handle_closing := true
                close_cb_registered := false }

/-- Oracle outcomes of the four OS interactions performed by `start`:
`uv_udp_init`, `uv_udp_bind`, `uv_udp_getsockname` (error flag, address
written back, returned addrlen), and `uv_udp_recv_start`. -/
structure StartEnv where
  init_ok : Bool
  bind_ok : Bool
  gsn_err : Bool
  gsn_addr : Address
  gsn_addrlen : Nat
  recv_start_ok : Bool
deriving DecidableEq, Repr

/-- `UDPReceiver::init_`: on success sets `handle_.data = this` and the
initialized flag (`uv_udp_init` reinitializes the handle, so the closing
state is reset); on failure leaves the state untouched. -/
def init_ (s : Receiver) (ok : Bool) : Bool × Receiver :=
  if ok then
    (true, { s with handle_data_set := true
                    handle_initialized := true
                    handle_closing := false
                    close_cb_registered := false })
  else (false, s)

/-- `UDPReceiver::bind_` computes the `uv_udp_bind` flags: address reuse
is requested iff the requested port is nonzero. -/
def bindFlags (bind_address : Address) : Nat :=
  if bind_address.port > 0 then 1 else 0

/-- `UDPReceiver::bind_`: succeeds iff the OS accepts the bind. -/
def bind_ (bind_address : Address) (env : StartEnv) : Bool :=
  let _ := bindFlags bind_address
  env.bind_ok

/-- `UDPReceiver::getsockname_`: queries the OS-assigned address. Fails on
an OS error, or when the returned addrlen differs from the structure size
of the written address; on success the resolved address is written back
into `bind_address`. -/
def getsockname_ (env : StartEnv) (bind_address : Address) : Bool × Address :=
  if env.gsn_err then (false, bind_address)
  else if env.gsn_addrlen ≠ env.gsn_addr.slen then (false, env.gsn_addr)
  else (true, env.gsn_addr)

/-- `UDPReceiver::start_`: begins the asynchronous receive; on success
records the resolved address in `address_`. -/
def start_ (s : Receiver) (bind_address : Address) (ok : Bool) : Bool × Receiver :=
  if ok then (true, { s with address := bind_address })
  else (false, s)

/-- `UDPReceiver::start`: the four setup steps, each failure after `init_`
rolling back through `close_`. Returns (result, receiver state, resolved
bind address). -/
def start (s : Receiver) (bind_address : Address) (env : StartEnv) :
    Bool × Receiver × Address :=
  match init_ s env.init_ok with
  | (false, s1) => (false, s1, bind_address)
  | (true, s1) =>
    if !bind_ bind_address env then (false, close_ s1, bind_address)
    else
      match getsockname_ env bind_address with
      | (false, a2) => (false, close_ s1, a2)
      | (true, a2) =>
        match start_ s1 a2 env.recv_start_ok with
        | (false, s2) => (false, close_ s2, a2)
        | (true, s2) => (true, s2, a2)

/-- All four setup steps succeed. -/
def envAllOk (env : StartEnv) : Bool :=
  env.init_ok && env.bind_ok && !env.gsn_err
    && decide (env.gsn_addrlen = env.gsn_addr.slen) && env.recv_start_ok

/-- Modulus of the C `unsigned` type: `packet_counter_` is a 32-bit
unsigned counter and wraps at this value. -/
def uintMod : Nat := 4294967296

/-- The buffer handed from `alloc_cb_` to `recv_cb_` through the raw
`uv_buf_t`: the leased `core::Buffer`'s capacity (`bp->size()`), the
offered length (`buf->len`), and the buffer's reference count as observed
through the raw memory (i.e. before `recv_cb_` takes its own
`SharedPtr` via `container_of`). -/
structure BufState where
  capacity : Nat
  len : Nat
  refcount : Nat
deriving DecidableEq, Repr

/-- `UDPReceiver::alloc_cb_`. `lease = none` models buffer-pool
exhaustion: the failure is reported as `buf->base = NULL; buf->len = 0`
(result `none`) and nothing else happens. On a successful lease of a
buffer of capacity `cap`, the `SharedPtr bp` holds one reference, the
offered size is clamped to the buffer's capacity, `bp->incref()` pins the
buffer for the pending I/O, and `bp` releases its reference when it goes
out of scope at the end of the callback. -/
def alloc_cb_ (requestedSize : Nat) (lease : Option Nat) : Option BufState :=
  match lease with
  | none => none
  | some cap =>
    let rc0 := 1
    let offered := if requestedSize > cap then cap else requestedSize
    let rc1 := rc0 + 1
    some { capacity := cap, len := offered, refcount := rc1 - 1 }

/-- A zero-copy view (`core::Slice<uint8_t>`) over a byte range of the
leased buffer. -/
structure DataSlice where
  off : Nat
  len : Nat
deriving DecidableEq, Repr

/-- A `packet::Packet` as assembled by `recv_cb_`: UDP kind flag, source
and destination addresses, and the data view. -/
structure Packet where
  flagUDP : Bool
  src_addr : Address
  dst_addr : Address
  data : DataSlice
deriving DecidableEq, Repr

/-- Outcome of one `recv_cb_` invocation: either a `roc_panic` (process
abort), or the updated receiver state, the packet forwarded to
`writer_.write` (if any), and the buffer's reference count after the
callback has fully returned (local `SharedPtr` released; the packet's
data slice retains one reference when a packet was forwarded). -/
inductive RecvResult where
  | panic (msg : String)
  | ok (s : Receiver) (forwarded : Option Packet) (bufRefcount : Nat)
deriving DecidableEq, Repr

/-- `UDPReceiver::recv_cb_`. Arguments: receiver state, `nread`, the
buffer recovered from `buf->base` via `container_of`, the source
`sockaddr` (none models a NULL pointer), the `UV_UDP_PARTIAL` flag, and
whether the packet-pool lease succeeds. Mirrors the source order:
source-address conversion (failure only logged), refcount assertion,
pin release, then the nread/sockaddr/flags dispatch, counter increment,
buffer-size assertion, packet assembly and forwarding. -/
def recv_cb_ (self : Receiver) (nread : Int) (buf : BufState)
    (sockaddr : Option SockAddr) (flagPartial : Bool) (packetLease : Bool) :
    RecvResult :=
  let src_addr : Address :=
    match sockaddr with
    | none => defaultAddress
    | some sa =>
      match set_saddr sa with
      | some a => a
      | none => defaultAddress
  let rc := buf.refcount + 1
  if rc ≠ 2 then RecvResult.panic "udp receiver: unexpected refcount" else
  let rc := rc - 1
  if nread < 0 then RecvResult.ok self none (rc - 1)
  else if nread = 0 then RecvResult.ok self none (rc - 1)
  else if sockaddr.isNone then
    RecvResult.panic "udp receiver: unexpected null source address"
  else if flagPartial then RecvResult.ok self none (rc - 1)
  else
    let self := { self with packet_counter := (self.packet_counter + 1) % uintMod }
    if nread.toNat > buf.capacity then
      RecvResult.panic "udp receiver: unexpected buffer size"
    else if !packetLease then RecvResult.ok self none (rc - 1)
    else
      let pp : Packet :=
        { flagUDP := true
          src_addr := src_addr
          dst_addr := self.address
          data := { off := 0, len := nread.toNat } }
      RecvResult.ok self (some pp) (rc + 1 - 1)

/-- A receiver in the Active state: handle initialized, not closing, no
pending container (as left by a successful `start`). -/
def activeReceiver : Receiver :=
  { mkReceiver with
      handle_initialized := true
      handle_data_set := true
      address := ⟨0, 7, 9⟩ }

/-- C7: `stop()` is idempotent: calling it when the handle is not
initialized, or when a close is already in flight, is a no-op, so calling
`stop()` twice in a row or on a never-started receiver produces no error
and at most one close request is ever issued per receiver. -/
theorem stop_idempotent :
    (∀ s : Receiver, stop (stop s) = stop s)
    ∧ (∀ s : Receiver, (stopE (stop s)).2 = false)
    ∧ (∀ s : Receiver, s.handle_initialized = false →
        stop s = s ∧ (stopE s).2 = false)
    ∧ (∀ s : Receiver, s.handle_closing = true →
        stop s = s ∧ (stopE s).2 = false) := by
  refine ⟨?_, ?_, ?_, ?_⟩
  · intro s
    by_cases h1 : s.handle_initialized <;> by_cases h2 : s.handle_closing <;>
      simp [stop, stopE, h1, h2]
  · intro s
    by_cases h1 : s.handle_initialized <;> by_cases h2 : s.handle_closing <;>
      simp [stop, stopE, h1, h2]
  · intro s h
    simp [stop, stopE, h]
  · intro s h
    by_cases h1 : s.handle_initialized <;> simp [stop, stopE, h1, h]

/-- Witness for C7 at the never-started receiver. -/
theorem stop_idempotent_witness :
    stop mkReceiver = mkReceiver ∧ (stopE mkReceiver).2 = false :=
  stop_idempotent.2.2.1 mkReceiver rfl

/-- C8: calling `remove()` while a pending-removal container is already
recorded is a fatal usage error (the `roc_panic_if(container_)` abort
path), not a silent no-op; the receiver is never double-registered. -/
theorem remove_double_registration_panics (s : Receiver) (cid c : Nat)
    (h : s.container = some c) :
    remove s cid = Except.error "udp receiver: container_ already set" := by
  simp [remove, h]

/-- Witness for C8: a second `remove` on a receiver whose container is
already recorded aborts. -/
theorem remove_double_registration_panics_witness :
    remove { mkReceiver with container := some 0 } 1
      = Except.error "udp receiver: container_ already set" :=
  remove_double_registration_panics { mkReceiver with container := some 0 } 1 0 rfl

/-- C5: `remove(container)` on an Active receiver does not remove it
immediately (0 removals at call time): it calls `stop()` (close
requested, close-completion callback registered), records the container
as pending, and clears the bound address; the receiver is removed from
the container only when the close-completion notification fires, and
exactly once. -/
theorem remove_deferred (s : Receiver) (cid : Nat)
    (h1 : s.handle_initialized = true) (h2 : s.container = none)
    (h3 : s.handle_closing = false) :
    ∃ s1 : Receiver,
      remove s cid = Except.ok (s1, 0)
      ∧ s1.handle_closing = true
      ∧ s1.close_cb_registered = true
      ∧ s1.container = some cid
      ∧ s1.address = defaultAddress
      ∧ (close_cb_ s1).2 = 1
      ∧ (close_cb_ s1).1.handle_initialized = false := by
  refine ⟨{ (stop s) with container := some cid, address := defaultAddress },
    ?_, ?_, ?_, rfl, rfl, ?_, rfl⟩
  · simp [remove, h1, h2]
  · simp [stop, stopE, h1, h3]
  · simp [stop, stopE, h1, h3]
  · simp [close_cb_]

/-- Witness for C5 at a concrete Active receiver. -/
theorem remove_deferred_witness :
    ∃ s1 : Receiver,
      remove activeReceiver 5 = Except.ok (s1, 0)
      ∧ s1.handle_closing = true
      ∧ s1.close_cb_registered = true
      ∧ s1.container = some 5
      ∧ s1.address = defaultAddress
      ∧ (close_cb_ s1).2 = 1
      ∧ (close_cb_ s1).1.handle_initialized = false :=
  remove_deferred activeReceiver 5 rfl rfl rfl

/-- C3: for every failure injected at any of the four setup steps of
`start()` (handle init, bind, getsockname, recv-start), `start()` returns
failure, any partially-initialized handle is closed before returning
(when init succeeded, the rollback `uv_close` has been issued), and the
receiver ends as a newly constructed one: handle not initialized and
bound address unset. -/
theorem start_rollback (bind_address : Address) (env : StartEnv)
    (hfail : envAllOk env = false) :
    (start mkReceiver bind_address env).1 = false
    ∧ (start mkReceiver bind_address env).2.1.handle_initialized = false
    ∧ (start mkReceiver bind_address env).2.1.address = defaultAddress
    ∧ (env.init_ok = true →
        (start mkReceiver bind_address env).2.1.handle_closing = true) := by
  unfold envAllOk at hfail
  by_cases h1 : env.init_ok <;> by_cases h2 : env.bind_ok <;>
    by_cases h3 : env.gsn_err <;>
    by_cases h4 : env.gsn_addrlen = env.gsn_addr.slen <;>
    by_cases h5 : env.recv_start_ok <;>
    simp_all [start, init_, bind_, bindFlags, getsockname_, start_, close_,
      mkReceiver]

/-- Witness for C3: bind failure rolls `start` back. -/
theorem start_rollback_witness :
    (start mkReceiver ⟨0, 0, 0⟩ ⟨true, false, false, ⟨0, 0, 0⟩, 16, true⟩).1 = false
    ∧ (start mkReceiver ⟨0, 0, 0⟩
        ⟨true, false, false, ⟨0, 0, 0⟩, 16, true⟩).2.1.handle_initialized = false
    ∧ (start mkReceiver ⟨0, 0, 0⟩
        ⟨true, false, false, ⟨0, 0, 0⟩, 16, true⟩).2.1.address = defaultAddress
    ∧ ((⟨true, false, false, ⟨0, 0, 0⟩, 16, true⟩ : StartEnv).init_ok = true →
        (start mkReceiver ⟨0, 0, 0⟩
          ⟨true, false, false, ⟨0, 0, 0⟩, 16, true⟩).2.1.handle_closing = true) :=
  start_rollback ⟨0, 0, 0⟩ ⟨true, false, false, ⟨0, 0, 0⟩, 16, true⟩ (by decide)

/-- C9: after any failed `start()`, the initialized flag is already false
when `start()` returns (the rollback close clears it synchronously), the
rollback close registers no close-completion callback, and the destructor
may run without a fatal error. -/
theorem start_rollback_no_close_notification (bind_address : Address)
    (env : StartEnv) (hfail : envAllOk env = false) :
    (start mkReceiver bind_address env).2.1.handle_initialized = false
    ∧ (start mkReceiver bind_address env).2.1.close_cb_registered = false
    ∧ destructorPanics (start mkReceiver bind_address env).2.1 = false := by
  unfold envAllOk at hfail
  by_cases h1 : env.init_ok <;> by_cases h2 : env.bind_ok <;>
    by_cases h3 : env.gsn_err <;>
    by_cases h4 : env.gsn_addrlen = env.gsn_addr.slen <;>
    by_cases h5 : env.recv_start_ok <;>
    simp_all [start, init_, bind_, bindFlags, getsockname_, start_, close_,
      destructorPanics, mkReceiver]

/-- Witness for C9: recv-start failure leaves a destructible receiver
with no close notification registered. -/
theorem start_rollback_no_close_notification_witness :
    (start mkReceiver ⟨0, 0, 0⟩
      ⟨true, true, false, ⟨0, 3, 4⟩, 16, false⟩).2.1.handle_initialized = false
    ∧ (start mkReceiver ⟨0, 0, 0⟩
        ⟨true, true, false, ⟨0, 3, 4⟩, 16, false⟩).2.1.close_cb_registered = false
    ∧ destructorPanics (start mkReceiver ⟨0, 0, 0⟩
        ⟨true, true, false, ⟨0, 3, 4⟩, 16, false⟩).2.1 = false :=
  start_rollback_no_close_notification ⟨0, 0, 0⟩
    ⟨true, true, false, ⟨0, 3, 4⟩, 16, false⟩ (by decide)

/-- C1: for every buffer leased by `alloc_cb_`, the reference count
observed at entry of `recv_cb_` (pin from allocation plus the local
owning handle) is exactly 2; any other raw count makes the completion
callback abort with the refcount panic; and on every non-panicking run
the pin count is released exactly once — after the callback returns, the
buffer holds 0 references when dropped and exactly the packet's 1
reference when forwarded. -/
theorem recv_refcount_invariant (requestedSize cap : Nat) (buf : BufState)
    (halloc : alloc_cb_ requestedSize (some cap) = some buf)
    (self : Receiver) (nread : Int) (sockaddr : Option SockAddr)
    (flagPartial packetLease : Bool) :
    buf.refcount + 1 = 2
    ∧ (∀ s1 fwd rcOut,
        recv_cb_ self nread buf sockaddr flagPartial packetLease
          = RecvResult.ok s1 fwd rcOut →
        rcOut = if fwd.isSome then 1 else 0)
    ∧ (∀ rc, rc ≠ 1 →
        recv_cb_ self nread { buf with refcount := rc } sockaddr flagPartial
            packetLease
          = RecvResult.panic "udp receiver: unexpected refcount") := by
  have hrc : buf.refcount = 1 := by
    simp [alloc_cb_] at halloc
    rw [← halloc]
  refine ⟨by omega, ?_, ?_⟩
  · intro s1 fwd rcOut h
    unfold recv_cb_ at h
    simp [hrc] at h
    split at h
    · cases h
      simp
    · split at h
      · cases h
        simp
      · split at h
        · exact absurd h (by simp)
        · split at h
          · cases h
            simp
          · split at h
            · exact absurd h (by simp)
            · split at h
              · cases h
                simp
              · cases h
                simp
  · intro rc hne
    have h2 : ¬(rc + 1 = 2) := by omega
    simp [recv_cb_, h2]

/-- Witness for C1 at a concrete 4-byte lease. -/
theorem recv_refcount_invariant_witness :
    (⟨4, 4, 1⟩ : BufState).refcount + 1 = 2
    ∧ (∀ s1 fwd rcOut,
        recv_cb_ mkReceiver 2 ⟨4, 4, 1⟩ none false false
          = RecvResult.ok s1 fwd rcOut →
        rcOut = if fwd.isSome then 1 else 0)
    ∧ (∀ rc, rc ≠ 1 →
        recv_cb_ mkReceiver 2 { (⟨4, 4, 1⟩ : BufState) with refcount := rc }
            none false false
          = RecvResult.panic "udp receiver: unexpected refcount") :=
  recv_refcount_invariant 4 4 ⟨4, 4, 1⟩ rfl mkReceiver 2 none false false

/-- C2: the three transient ingestion conditions — buffer-pool exhaustion
at `alloc_cb_` (reported as the empty-buffer signal), a zero-length read
(with or without a source address), and a completion flagged as a partial
read — each forward no packet, trigger no panic, and leave the receiver
state unchanged (so an Active receiver remains Active). -/
theorem drop_without_crash (self : Receiver) (requestedSize : Nat)
    (buf : BufState) (hrc : buf.refcount = 1) (sa : SockAddr)
    (packetLease : Bool) :
    alloc_cb_ requestedSize none = none
    ∧ recv_cb_ self 0 buf (some sa) false packetLease
        = RecvResult.ok self none 0
    ∧ recv_cb_ self 0 buf none false packetLease
        = RecvResult.ok self none 0
    ∧ (∀ n : Int, 0 < n →
        recv_cb_ self n buf (some sa) true packetLease
          = RecvResult.ok self none 0) := by
  refine ⟨rfl, ?_, ?_, ?_⟩
  · simp [recv_cb_, hrc]
  · simp [recv_cb_, hrc]
  · intro n hn
    have h1 : ¬(n < 0) := by omega
    have h2 : ¬(n = 0) := by omega
    simp [recv_cb_, hrc, h1, h2]

/-- Witness for C2 at a concrete Active receiver and 4-byte buffer. -/
theorem drop_without_crash_witness :
    alloc_cb_ 4 none = none
    ∧ recv_cb_ activeReceiver 0 ⟨4, 4, 1⟩ (some ⟨some ⟨0, 1, 2⟩⟩) false true
        = RecvResult.ok activeReceiver none 0
    ∧ recv_cb_ activeReceiver 0 ⟨4, 4, 1⟩ none false true
        = RecvResult.ok activeReceiver none 0
    ∧ (∀ n : Int, 0 < n →
        recv_cb_ activeReceiver n ⟨4, 4, 1⟩ (some ⟨some ⟨0, 1, 2⟩⟩) true true
          = RecvResult.ok activeReceiver none 0) :=
  drop_without_crash activeReceiver 4 ⟨4, 4, 1⟩ rfl ⟨some ⟨0, 1, 2⟩⟩ true

/-- C4: a clean, complete, non-empty datagram of `n` bytes from source
`S` received by a receiver bound at `self.address` is forwarded as a
packet carrying source `S`, destination `self.address`, the UDP kind
flag, and a zero-copy data view over exactly bytes `[0, n)` of the
leased buffer. -/
theorem packet_field_fidelity (self : Receiver) (buf : BufState)
    (S : Address) (sa : SockAddr) (n : Nat) (hn : 0 < n)
    (hcap : n ≤ buf.capacity) (hrc : buf.refcount = 1)
    (hsa : set_saddr sa = some S) :
    recv_cb_ self (n : Int) buf (some sa) false true =
      RecvResult.ok
        { self with packet_counter := (self.packet_counter + 1) % uintMod }
        (some { flagUDP := true
                src_addr := S
                dst_addr := self.address
                data := { off := 0, len := n } }) 1 := by
  have h1 : ¬((n : Int) < 0) := by omega
  have h2 : ¬((n : Int) = 0) := by omega
  have h3 : (n : Int).toNat = n := by omega
  have h4 : ¬(n > buf.capacity) := by omega
  simp [recv_cb_, hsa, hrc, h1, h2, h3, h4]

/-- Witness for C4: a 3-byte datagram from a concrete source. -/
theorem packet_field_fidelity_witness :
    recv_cb_ activeReceiver ((3 : Nat) : Int) ⟨4, 4, 1⟩ (some ⟨some ⟨0, 1, 2⟩⟩)
        false true =
      RecvResult.ok
        { activeReceiver with
            packet_counter := (activeReceiver.packet_counter + 1) % uintMod }
        (some { flagUDP := true
                src_addr := ⟨0, 1, 2⟩
                dst_addr := activeReceiver.address
                data := { off := 0, len := 3 } }) 1 :=
  packet_field_fidelity activeReceiver ⟨4, 4, 1⟩ ⟨0, 1, 2⟩ ⟨some ⟨0, 1, 2⟩⟩ 3
    (by decide) (by decide) rfl rfl

/-- C10: a positive-length datagram whose non-null source sockaddr fails
to convert (`set_saddr` failure) is not dropped: the error is only
logged, and a packet is still assembled and forwarded with a
default-constructed (empty) source address. -/
theorem saddr_conversion_failure_still_forwards (self : Receiver)
    (buf : BufState) (sa : SockAddr) (n : Nat) (hn : 0 < n)
    (hcap : n ≤ buf.capacity) (hrc : buf.refcount = 1)
    (hsa : set_saddr sa = none) :
    recv_cb_ self (n : Int) buf (some sa) false true =
      RecvResult.ok
        { self with packet_counter := (self.packet_counter + 1) % uintMod }
        (some { flagUDP := true
                src_addr := defaultAddress
                dst_addr := self.address
                data := { off := 0, len := n } }) 1 := by
  have h1 : ¬((n : Int) < 0) := by omega
  have h2 : ¬((n : Int) = 0) := by omega
  have h3 : (n : Int).toNat = n := by omega
  have h4 : ¬(n > buf.capacity) := by omega
  simp [recv_cb_, hsa, hrc, h1, h2, h3, h4]

/-- Witness for C10: a 2-byte datagram with an unconvertible sockaddr. -/
theorem saddr_conversion_failure_still_forwards_witness :
    recv_cb_ activeReceiver ((2 : Nat) : Int) ⟨4, 4, 1⟩ (some ⟨none⟩)
        false true =
      RecvResult.ok
        { activeReceiver with
            packet_counter := (activeReceiver.packet_counter + 1) % uintMod }
        (some { flagUDP := true
                src_addr := defaultAddress
                dst_addr := activeReceiver.address
                data := { off := 0, len := 2 } }) 1 :=
  saddr_conversion_failure_still_forwards activeReceiver ⟨4, 4, 1⟩ ⟨none⟩ 2
    (by decide) (by decide) rfl rfl

/-- C6 counterexample: when the packet pool is exhausted, `recv_cb_`
increments `packet_counter` (0 becomes 1) even though no packet is
forwarded to the downstream writer — the counter is incremented before
the packet-pool lease, refuting "increases ... exactly when ... forwarded
..., never for dropped ... datagrams". -/
theorem packet_counter_incremented_without_forward :
    recv_cb_ mkReceiver 1 ⟨4, 4, 1⟩ (some ⟨some ⟨0, 1, 2⟩⟩) false false
      = RecvResult.ok { mkReceiver with packet_counter := 1 } none 0 := by
  rfl

/-- C6 (amended): across any completion callback, the 32-bit
`packet_counter` advances by exactly one modulo `2 ^ 32` exactly when a
clean, complete, non-empty datagram is accepted for ingestion (positive
length, source address present, no partial flag) — including when the
packet is then dropped because the packet pool is exhausted — and is
unchanged otherwise; every forwarded packet corresponds to such an
advance; and the counter never decreases except at the wrap from
`2 ^ 32 - 1` to `0`. -/
theorem packet_counter_monotone (self : Receiver) (nread : Int)
    (buf : BufState) (sockaddr : Option SockAddr)
    (flagPartial packetLease : Bool) (s1 : Receiver) (fwd : Option Packet)
    (rcOut : Nat)
    (h : recv_cb_ self nread buf sockaddr flagPartial packetLease
      = RecvResult.ok s1 fwd rcOut) :
    (s1.packet_counter = (self.packet_counter + 1) % uintMod
        ↔ 0 < nread ∧ sockaddr.isSome = true ∧ flagPartial = false)
    ∧ (s1.packet_counter = (self.packet_counter + 1) % uintMod
        ∨ s1.packet_counter = self.packet_counter)
    ∧ (self.packet_counter < uintMod →
        self.packet_counter ≤ s1.packet_counter
          ∨ (self.packet_counter = uintMod - 1 ∧ s1.packet_counter = 0))
    ∧ (fwd.isSome = true →
        s1.packet_counter = (self.packet_counter + 1) % uintMod) := by
  have key : s1.packet_counter =
        (if 0 < nread ∧ sockaddr.isSome = true ∧ flagPartial = false
         then (self.packet_counter + 1) % uintMod
         else self.packet_counter)
      ∧ (fwd.isSome = true →
          0 < nread ∧ sockaddr.isSome = true ∧ flagPartial = false) := by
    unfold recv_cb_ at h
    by_cases hrc : buf.refcount = 1
    case neg =>
      rw [if_pos (by omega)] at h
      exact absurd h (by simp)
    simp [hrc] at h
    split at h
    · cases h
      refine ⟨?_, by simp⟩
      rw [if_neg]
      intro hcond
      exact absurd hcond.1 (by omega)
    · split at h
      · cases h
        refine ⟨?_, by simp⟩
        rw [if_neg]
        intro hcond
        exact absurd hcond.1 (by omega)
      · split at h
        · exact absurd h (by simp)
        · split at h
          · cases h
            refine ⟨?_, by simp⟩
            rw [if_neg]
            intro hcond
            simp_all
          · split at h
            · exact absurd h (by simp)
            · have hacc : 0 < nread ∧ sockaddr.isSome = true
                  ∧ flagPartial = false := by
                refine ⟨by omega, ?_, ?_⟩
                · cases sockaddr with
                  | none => simp_all
                  | some sa => rfl
                · cases flagPartial with
                  | false => rfl
                  | true => simp_all
              split at h
              · cases h
                exact ⟨by rw [if_pos hacc], fun _ => hacc⟩
              · cases h
                exact ⟨by rw [if_pos hacc], fun _ => hacc⟩
  obtain ⟨hpc, hfwd⟩ := key
  by_cases hacc : 0 < nread ∧ sockaddr.isSome = true ∧ flagPartial = false
  · rw [if_pos hacc] at hpc
    refine ⟨⟨fun _ => hacc, fun _ => hpc⟩, Or.inl hpc, ?_, fun _ => hpc⟩
    intro hlt
    rw [hpc]
    simp only [uintMod] at hlt ⊢
    omega
  · rw [if_neg hacc] at hpc
    refine ⟨⟨fun hc => ?_, fun hc => absurd hc hacc⟩, Or.inr hpc, ?_,
      fun hf => absurd (hfwd hf) hacc⟩
    · rw [hpc] at hc
      exact absurd hc (by simp only [uintMod]; omega)
    · intro hlt
      rw [hpc]
      exact Or.inl (Nat.le_refl _)

/-- Witness for C6 (amended) at a clean forwarded 1-byte datagram. -/
theorem packet_counter_monotone_witness :
    (({ mkReceiver with packet_counter := 1 } : Receiver).packet_counter
        = (mkReceiver.packet_counter + 1) % uintMod
      ↔ 0 < (1 : Int) ∧ (some (⟨some ⟨0, 1, 2⟩⟩ : SockAddr)).isSome = true
          ∧ false = false)
    ∧ (({ mkReceiver with packet_counter := 1 } : Receiver).packet_counter
          = (mkReceiver.packet_counter + 1) % uintMod
        ∨ ({ mkReceiver with packet_counter := 1 } : Receiver).packet_counter
          = mkReceiver.packet_counter)
    ∧ (mkReceiver.packet_counter < uintMod →
        mkReceiver.packet_counter
            ≤ ({ mkReceiver with packet_counter := 1 } : Receiver).packet_counter
          ∨ (mkReceiver.packet_counter = uintMod - 1
              ∧ ({ mkReceiver with
                    packet_counter := 1 } : Receiver).packet_counter = 0))
    ∧ ((some (Packet.mk true ⟨0, 1, 2⟩ mkReceiver.address ⟨0, 1⟩)
          : Option Packet).isSome = true →
        ({ mkReceiver with packet_counter := 1 } : Receiver).packet_counter
          = (mkReceiver.packet_counter + 1) % uintMod) :=
  packet_counter_monotone mkReceiver 1 ⟨4, 4, 1⟩ (some ⟨some ⟨0, 1, 2⟩⟩)
    false true { mkReceiver with packet_counter := 1 }
    (some (Packet.mk true ⟨0, 1, 2⟩ mkReceiver.address ⟨0, 1⟩)) 1 rfl

end UDPReceiver
